import Mathlib

/-!
Shallow embedding of the notifications context of the campus-safety mobile
app (`src/unnamed/part_000`, the `NotificationsProvider` context hook).

Modelling conventions:
* React `useState` state (`notifications`, `emergencyAlerts`, `loading`) is
  gathered in an explicit `CacheState` record; each operation is a pure
  function from its environment inputs and the current state to a result.
* A `setX(prev => ...)` functional update is modelled as applying the
  updater to the current state immediately.
* The `notifications` variable captured by the `toggleFollow` callback at
  render time is a separate `closure` parameter: the source reads it (not
  the updater's `prev`) when computing the remote payload.
* Each call to `new Date().toISOString()` in the source is a distinct
  timestamp parameter of the embedded function.
* A fallible remote call is modelled by a parameter carrying its outcome:
  `Option String` for a create that returns a fresh id (`none` = the call
  raised), `Bool` for patch/delete (`false` = the call raised).  The writes
  the operation hands to the remote adapter are returned explicitly as a
  `List RemoteWrite` so that theorems can speak about what was issued.
* Thrown errors are `Except AppError` outcomes.
-/

inductive Role where
  | user
  | admin
deriving DecidableEq, Repr

structure User where
  id : String
  email : String
  fullName : String
  department : String
  role : Role
  createdAt : String
deriving DecidableEq, Repr

/-- Statuses of an incident record; the source's `'open'` literal is spelled
`open_` because `open` is reserved in Lean. -/
inductive NotificationStatus where
  | open_
  | in_progress
  | resolved
  | closed
deriving DecidableEq, Repr

structure Location where
  latitude : Int
  longitude : Int
  address : Option String
deriving DecidableEq, Repr

structure Notification where
  id : String
  type : String
  title : String
  description : String
  location : Location
  photoUrl : Option String
  status : NotificationStatus
  createdBy : String
  createdByName : String
  createdAt : String
  updatedAt : String
  followedBy : List String
deriving DecidableEq, Repr

structure EmergencyAlert where
  id : String
  title : String
  message : String
  createdAt : String
  createdBy : String
deriving DecidableEq, Repr

/-- The `CreateNotificationData` interface of the source. -/
structure CreateNotificationData where
  type : String
  title : String
  description : String
  location : Location
  photoUrl : Option String
deriving DecidableEq, Repr

/-- TypeScript `Partial<Notification>`: every field optionally present. -/
structure NotificationPatch where
  id : Option String := none
  type : Option String := none
  title : Option String := none
  description : Option String := none
  location : Option Location := none
  photoUrl : Option (Option String) := none
  status : Option NotificationStatus := none
  createdBy : Option String := none
  createdByName : Option String := none
  createdAt : Option String := none
  updatedAt : Option String := none
  followedBy : Option (List String) := none
deriving DecidableEq, Repr

/-- Spread-merge `{ ...n, ...p }`: fields present in the patch win. -/
def applyPatch (n : Notification) (p : NotificationPatch) : Notification :=
  { id := p.id.getD n.id
    type := p.type.getD n.type
    title := p.title.getD n.title
    description := p.description.getD n.description
    location := p.location.getD n.location
    photoUrl := p.photoUrl.getD n.photoUrl
    status := p.status.getD n.status
    createdBy := p.createdBy.getD n.createdBy
    createdByName := p.createdByName.getD n.createdByName
    createdAt := p.createdAt.getD n.createdAt
    updatedAt := p.updatedAt.getD n.updatedAt
    followedBy := p.followedBy.getD n.followedBy }

/-- TypeScript `Omit<Notification, 'id'>`, the payload of a remote create. -/
structure NotificationDraft where
  type : String
  title : String
  description : String
  location : Location
  photoUrl : Option String
  status : NotificationStatus
  createdBy : String
  createdByName : String
  createdAt : String
  updatedAt : String
  followedBy : List String
deriving DecidableEq, Repr

/-- TypeScript `Omit<EmergencyAlert, 'id'>`. -/
structure AlertDraft where
  title : String
  message : String
  createdAt : String
  createdBy : String
deriving DecidableEq, Repr

/-- Attach the remote-assigned id: `{ id, ...newNotificationData }`. -/
def NotificationDraft.withId (d : NotificationDraft) (id : String) : Notification :=
  { id := id
    type := d.type
    title := d.title
    description := d.description
    location := d.location
    photoUrl := d.photoUrl
    status := d.status
    createdBy := d.createdBy
    createdByName := d.createdByName
    createdAt := d.createdAt
    updatedAt := d.updatedAt
    followedBy := d.followedBy }

/-- One call issued to the remote store adapter (`services/database`). -/
inductive RemoteWrite where
  | createNotificationW (fields : NotificationDraft)
  | patchNotificationW (id : String) (p : NotificationPatch)
  | deleteNotificationW (id : String)
  | createAlertW (fields : AlertDraft)
deriving DecidableEq, Repr

inductive AppError where
  | notAuthenticated
  | notAuthorized
  | remoteError
deriving DecidableEq, Repr

deriving instance DecidableEq for Except

/-- In-memory state owned by the provider: the two ordered sequences and the
`loading` flag. -/
structure CacheState where
  notifications : List Notification
  emergencyAlerts : List EmergencyAlert
  loading : Bool
deriving DecidableEq, Repr

/-- Result of one provider operation: the remote writes it issued (in
order), its outcome (return value or thrown error), and the state it leaves
behind. -/
structure OpResult (α : Type) where
  writes : List RemoteWrite
  outcome : Except AppError α
  state : CacheState
deriving DecidableEq, Repr

/-- The `setLoading(true)` at the top of `refreshNotifications`. -/
def refreshStart (s : CacheState) : CacheState :=
  { s with loading := true }

/-- Resolution of `Promise.all([fetchNotificationsFromDb(), fetchEmergencyAlertsFromDb()])`
followed by the two setters, the catch, and the `finally` clearing `loading`:
the setters run only when both fetches succeeded. -/
def refreshFinish (fetchedNots : Option (List Notification))
    (fetchedAlerts : Option (List EmergencyAlert)) (s : CacheState) : CacheState :=
  match fetchedNots, fetchedAlerts with
  | some ns, some als =>
      { s with notifications := ns, emergencyAlerts := als, loading := false }
  | _, _ => { s with loading := false }

/-- `refreshNotifications` from the source, lines 32-46. -/
def refreshNotifications (fetchedNots : Option (List Notification))
    (fetchedAlerts : Option (List EmergencyAlert)) (s : CacheState) : CacheState :=
  refreshFinish fetchedNots fetchedAlerts (refreshStart s)

/-- `createNotification` from the source, lines 52-71.  `remoteId` is the
outcome of `createNotificationInDb` (`none` = the remote create raised). -/
def createNotification (user : Option User) (timestamp : String)
    (remoteId : Option String) (data : CreateNotificationData)
    (s : CacheState) : OpResult Notification :=
  match user with
  | none => ⟨[], .error .notAuthenticated, s⟩
  | some u =>
    let draft : NotificationDraft :=
      { type := data.type
        title := data.title
        description := data.description
        location := data.location
        photoUrl := data.photoUrl
        status := .open_
        createdBy := u.id
        createdByName := u.fullName
        createdAt := timestamp
        updatedAt := timestamp
        followedBy := [u.id] }
    match remoteId with
    | none => ⟨[.createNotificationW draft], .error .remoteError, s⟩
    | some id =>
      let newNotification := draft.withId id
      ⟨[.createNotificationW draft], .ok newNotification,
        { s with notifications := newNotification :: s.notifications }⟩

/-- `updateNotificationStatus` from the source, lines 73-87.  The source
reads the clock twice: `patchTime` is the `new Date()` inside the remote
patch (line 75), `applyTime` the one inside the local map (line 79); the
local map runs only after the awaited remote patch succeeded. -/
def updateNotificationStatus (remoteOk : Bool) (patchTime applyTime : String)
    (id : String) (status : NotificationStatus) (s : CacheState) : OpResult Unit :=
  let w := RemoteWrite.patchNotificationW id
    { status := some status, updatedAt := some patchTime }
  if remoteOk then
    ⟨[w], .ok (),
      { s with notifications := s.notifications.map fun n =>
          if n.id = id then { n with status := status, updatedAt := applyTime } else n }⟩
  else ⟨[w], .error .remoteError, s⟩

/-- `updateNotification` from the source, lines 89-104: one timestamp is
shared by the remote patch and the local apply, and the local apply runs
only after the awaited remote patch succeeded. -/
def updateNotification (remoteOk : Bool) (timestamp : String) (id : String)
    (updates : NotificationPatch) (s : CacheState) : OpResult Unit :=
  let p := { updates with updatedAt := some timestamp }
  if remoteOk then
    ⟨[.patchNotificationW id p], .ok (),
      { s with notifications := s.notifications.map fun n =>
          if n.id = id then applyPatch n p else n }⟩
  else ⟨[.patchNotificationW id p], .error .remoteError, s⟩

/-- `deleteNotification` from the source, lines 106-114: the local filter
runs only after the awaited remote delete succeeded; on failure the error is
re-thrown with the local sequence untouched. -/
def deleteNotification (remoteOk : Bool) (id : String) (s : CacheState) : OpResult Unit :=
  if remoteOk then
    ⟨[.deleteNotificationW id], .ok (),
      { s with notifications := s.notifications.filter fun n => n.id ≠ id }⟩
  else ⟨[.deleteNotificationW id], .error .remoteError, s⟩

/-- The membership toggle applied per matching record in the optimistic
update of `toggleFollow` (source lines 124-130). -/
def toggleList (followedBy : List String) (uid : String) : List String :=
  if followedBy.contains uid then followedBy.filter (fun x => x ≠ uid)
  else followedBy ++ [uid]

/-- The updater passed to `setNotifications` in `toggleFollow`
(source lines 121-132), applied pointwise. -/
def toggleFun (notificationId uid : String) (n : Notification) : Notification :=
  if n.id = notificationId then { n with followedBy := toggleList n.followedBy uid } else n

/-- `toggleFollow` from the source, lines 116-149.  `closure` is the
`notifications` array captured by the callback at render time; the current
state is `s`.  The mutable `isFollowing` flag ends up holding the membership
test of the last record of the current sequence whose id matches (false when
none matches); the remote payload is computed from the `closure` record
found by `find` together with that flag.  On remote failure the source does
not re-throw: it runs `refreshNotifications()` (outcome modelled by
`recoverNots`/`recoverAlerts`). -/
def toggleFollow (user : Option User) (closure : List Notification)
    (remoteOk : Bool) (recoverNots : Option (List Notification))
    (recoverAlerts : Option (List EmergencyAlert)) (notificationId : String)
    (s : CacheState) : List RemoteWrite × CacheState :=
  match user with
  | none => ([], s)
  | some u =>
    let isFollowing := s.notifications.foldl
      (fun acc n => if n.id = notificationId then n.followedBy.contains u.id else acc) false
    let applied :=
      { s with notifications := s.notifications.map (toggleFun notificationId u.id) }
    match closure.find? (fun n => n.id = notificationId) with
    | none => ([], applied)
    | some n0 =>
      let newFollowers :=
        if isFollowing then n0.followedBy.filter (fun x => x ≠ u.id)
        else n0.followedBy ++ [u.id]
      let w := RemoteWrite.patchNotificationW notificationId { followedBy := some newFollowers }
      if remoteOk then ([w], applied)
      else ([w], refreshNotifications recoverNots recoverAlerts applied)

/-- `createEmergencyAlert` from the source, lines 151-173: the role gate
runs synchronously before anything else; `remoteId` is the outcome of
`createEmergencyAlertInDb`. -/
def createEmergencyAlert (user : Option User) (timestamp : String)
    (remoteId : Option String) (title message : String)
    (s : CacheState) : OpResult EmergencyAlert :=
  match user with
  | none => ⟨[], .error .notAuthorized, s⟩
  | some u =>
    if u.role = Role.admin then
      let draft : AlertDraft :=
        { title := title, message := message, createdAt := timestamp, createdBy := u.id }
      match remoteId with
      | none => ⟨[.createAlertW draft], .error .remoteError, s⟩
      | some id =>
        let newAlert : EmergencyAlert :=
          { id := id, title := title, message := message
            createdAt := timestamp, createdBy := u.id }
        ⟨[.createAlertW draft], .ok newAlert,
          { s with emergencyAlerts := newAlert :: s.emergencyAlerts }⟩
    else ⟨[], .error .notAuthorized, s⟩

/-- `getNotificationById` from the source, lines 175-177. -/
def getNotificationById (s : CacheState) (id : String) : Option Notification :=
  s.notifications.find? (fun n => n.id = id)

/-- Projection used to inspect the `updatedAt` field a patch write carries. -/
def patchUpdatedAt : RemoteWrite → Option (Option String)
  | .patchNotificationW _ p => some p.updatedAt
  | _ => none

/-! Concrete sample data used by witnesses and counterexamples. -/

def locZero : Location := { latitude := 0, longitude := 0, address := none }

def userOne : User :=
  { id := "U1", email := "u1@x", fullName := "User One", department := "D"
    role := Role.user, createdAt := "T0" }

def userTwo : User :=
  { id := "U2", email := "u2@x", fullName := "User Two", department := "D"
    role := Role.user, createdAt := "T0" }

def adminOne : User :=
  { id := "A1", email := "a1@x", fullName := "Admin One", department := "D"
    role := Role.admin, createdAt := "T0" }

def sampleNotification : Notification :=
  { id := "n1", type := "hazard", title := "Pothole", description := "big"
    location := locZero, photoUrl := none, status := NotificationStatus.open_
    createdBy := "U1", createdByName := "User One", createdAt := "T0"
    updatedAt := "T0", followedBy := ["U1"] }

def sampleState : CacheState :=
  { notifications := [sampleNotification], emergencyAlerts := [], loading := false }

/-! Theorems about the embedded operations. -/

/-- C1 counterexample.  The claim asserts that after a failed `delete(id)`
the record is absent from the local sequence (`getById(id) = none`).  On the
code, with the single-record sample state and the remote delete failing, the
record is still found. -/
theorem delete_failure_keeps_record_cex :
    getNotificationById (deleteNotification false "n1" sampleState).state "n1"
        = some sampleNotification ∧
      some sampleNotification ≠ (none : Option Notification) := by
  decide

/-- C1 amended.  `deleteNotification` awaits the remote delete before
touching local state: when the remote delete fails it issues the delete
write, re-throws `RemoteError`, and leaves the local sequence exactly as it
was, so `getById(id)` still returns the record. -/
theorem delete_failure_local_unchanged (id : String) (s : CacheState) :
    deleteNotification false id s
        = ⟨[RemoteWrite.deleteNotificationW id], Except.error AppError.remoteError, s⟩ ∧
      getNotificationById (deleteNotification false id s).state id
        = getNotificationById s id := by
  exact ⟨rfl, rfl⟩

/-- C8.  `refresh` is all-or-nothing: if either bulk fetch fails, both the
incident sequence and the alert sequence are left exactly as they were (in
particular one fetch succeeding alone overwrites nothing); on success both
are replaced wholesale; the intermediate state has `loading = true` and the
final state has `loading = false` in every outcome. -/
theorem refresh_all_or_nothing (s : CacheState) (ns : List Notification)
    (als : List EmergencyAlert) :
    refreshNotifications none none s = { s with loading := false } ∧
      refreshNotifications (some ns) none s = { s with loading := false } ∧
      refreshNotifications none (some als) s = { s with loading := false } ∧
      refreshNotifications (some ns) (some als) s
        = { notifications := ns, emergencyAlerts := als, loading := false } ∧
      (refreshStart s).loading = true ∧
      (refreshNotifications none none s).loading = false ∧
      (refreshNotifications (some ns) (some als) s).loading = false := by
  exact ⟨rfl, rfl, rfl, rfl, rfl, rfl, rfl⟩

/-- C4.  `createNotification` with no active identity throws
`NotAuthenticated` without issuing any remote write and leaves the state
unchanged; with an active identity it issues the remote create first, and
only when that returns an id does it prepend the fully-formed record at
index 0, with status `open`, `createdBy`/`createdByName` from the identity,
`followedBy = [createdBy]`, and `createdAt = updatedAt =` the issue time; if
the remote create fails the error propagates and the state is unchanged. -/
theorem createNotification_spec (u : User) (ts rid : String)
    (rido : Option String) (data : CreateNotificationData) (s : CacheState) :
    createNotification none ts rido data s = ⟨[], Except.error AppError.notAuthenticated, s⟩ ∧
      (let r := createNotification (some u) ts (some rid) data s
       ∃ nn : Notification,
         r.outcome = Except.ok nn ∧
         nn.id = rid ∧
         nn.status = NotificationStatus.open_ ∧
         nn.createdBy = u.id ∧
         nn.createdByName = u.fullName ∧
         nn.followedBy = [u.id] ∧
         nn.createdAt = ts ∧
         nn.updatedAt = ts ∧
         r.state.notifications = nn :: s.notifications ∧
         r.state.emergencyAlerts = s.emergencyAlerts ∧
         r.writes.length = 1) ∧
      (createNotification (some u) ts none data s).state = s ∧
      (createNotification (some u) ts none data s).outcome
        = Except.error AppError.remoteError ∧
      (createNotification (some u) ts none data s).writes.length = 1 := by
  exact ⟨rfl, ⟨_, rfl, rfl, rfl, rfl, rfl, rfl, rfl, rfl, rfl, rfl, rfl⟩, rfl, rfl, rfl⟩

/-- Lookup of the patched sequence: when the per-record update preserves
ids, finding `i` after the conditional map is finding `i` first and then
updating. -/
theorem find?_map_ite (l : List Notification) (i : String)
    (f : Notification → Notification) (hf : ∀ n : Notification, (f n).id = n.id) :
    (l.map fun n => if n.id = i then f n else n).find? (fun n => n.id = i)
      = (l.find? (fun n => n.id = i)).map f := by
  induction l with
  | nil => rfl
  | cons a t ih =>
    by_cases h : a.id = i
    · simp [List.find?_cons, h, hf a]
    · simp [List.find?_cons, h, ih]

/-- Lookup after `filter (n.id ≠ i)` never finds `i`. -/
theorem find?_filter_ne (l : List Notification) (i : String) :
    (l.filter fun n => n.id ≠ i).find? (fun n => n.id = i) = none := by
  induction l with
  | nil => rfl
  | cons a t ih =>
    by_cases h : a.id = i
    · simp [List.filter_cons, h, ih]
    · simp [List.filter_cons, h, List.find?_cons, ih]

def emptyPatch : NotificationPatch := {}

/-- C2 counterexample.  The claim asserts the optimistic local change is
applied before the remote write completes and survives a remote failure.  On
the code, a failed `updateStatus("n1", resolved)` leaves the record with its
old status `open`: the caller does not observe the change. -/
theorem updateStatus_failure_cex :
    getNotificationById
        (updateNotificationStatus false "T1" "T2" "n1"
          NotificationStatus.resolved sampleState).state "n1"
        = some sampleNotification ∧
      sampleNotification.status ≠ NotificationStatus.resolved := by
  decide

/-- C2 amended.  `updateStatus`, `updateFields` and `delete` are not
optimistic: when the remote write fails they re-throw `RemoteError` and
leave the local sequence unchanged; the computed new value is applied to the
local sequence only after the remote write succeeds. -/
theorem mutations_apply_after_remote_success (patchTime applyTime ts id : String)
    (st : NotificationStatus) (p : NotificationPatch) (s : CacheState) :
    (updateNotificationStatus false patchTime applyTime id st s).state = s ∧
      (updateNotificationStatus false patchTime applyTime id st s).outcome
        = Except.error AppError.remoteError ∧
      (updateNotification false ts id p s).state = s ∧
      (updateNotification false ts id p s).outcome = Except.error AppError.remoteError ∧
      (deleteNotification false id s).state = s ∧
      (deleteNotification false id s).outcome = Except.error AppError.remoteError ∧
      getNotificationById (updateNotificationStatus true patchTime applyTime id st s).state id
        = (getNotificationById s id).map
            (fun n => { n with status := st, updatedAt := applyTime }) ∧
      (p.id = none →
        getNotificationById (updateNotification true ts id p s).state id
          = (getNotificationById s id).map
              (fun n => applyPatch n { p with updatedAt := some ts })) ∧
      getNotificationById (deleteNotification true id s).state id = none := by
  refine ⟨rfl, rfl, rfl, rfl, rfl, rfl, ?_, ?_, ?_⟩
  · simpa [getNotificationById, updateNotificationStatus] using
      find?_map_ite s.notifications id
        (fun n => { n with status := st, updatedAt := applyTime }) (fun n => rfl)
  · intro hp
    have hid : ∀ n : Notification, (applyPatch n { p with updatedAt := some ts }).id = n.id := by
      intro n
      simp [applyPatch, hp]
    simpa [getNotificationById, updateNotification] using
      find?_map_ite s.notifications id (fun n => applyPatch n { p with updatedAt := some ts }) hid
  · simp [getNotificationById, deleteNotification, find?_filter_ne]

/-- Witness for the hypotheses of `mutations_apply_after_remote_success`,
discharged at the empty patch and the sample state. -/
theorem mutations_apply_after_remote_success_witness :
    emptyPatch.id = none ∧
      getNotificationById (updateNotification true "T1" "n1" emptyPatch sampleState).state "n1"
        = (getNotificationById sampleState "n1").map
            (fun n => applyPatch n { emptyPatch with updatedAt := some "T1" }) :=
  ⟨rfl,
    (mutations_apply_after_remote_success "TP" "TA" "T1" "n1"
      NotificationStatus.resolved emptyPatch sampleState).2.2.2.2.2.2.2.1 rfl⟩

/-- C5.  `createEmergencyAlert` rejects with `NotAuthorized` when no
identity is active or the active identity's role is not `admin`; in both
unauthorized cases no remote write is issued and the state (in particular
the alert sequence) is unchanged.  When the role is `admin` and the remote
create returns an id, the new alert carrying that id is prepended to the
local alert sequence. -/
theorem createEmergencyAlert_auth_spec (u : User) (ts : String) (rido : Option String)
    (rid title message : String) (s : CacheState) :
    createEmergencyAlert none ts rido title message s
        = ⟨[], Except.error AppError.notAuthorized, s⟩ ∧
      (u.role ≠ Role.admin →
        createEmergencyAlert (some u) ts rido title message s
          = ⟨[], Except.error AppError.notAuthorized, s⟩) ∧
      (u.role = Role.admin →
        (createEmergencyAlert (some u) ts (some rid) title message s).state.emergencyAlerts
            = { id := rid, title := title, message := message
                createdAt := ts, createdBy := u.id } :: s.emergencyAlerts ∧
          (createEmergencyAlert (some u) ts (some rid) title message s).state.notifications
            = s.notifications ∧
          (createEmergencyAlert (some u) ts (some rid) title message s).outcome
            = Except.ok { id := rid, title := title, message := message
                          createdAt := ts, createdBy := u.id }) := by
  refine ⟨rfl, ?_, ?_⟩
  · intro h
    simp [createEmergencyAlert, h]
  · intro h
    simp [createEmergencyAlert, h]

/-- Witness for the hypotheses of `createEmergencyAlert_auth_spec`: a
role-`user` identity is rejected with `NotAuthorized` and the state is
untouched. -/
theorem createEmergencyAlert_auth_spec_witness :
    userOne.role ≠ Role.admin ∧
      createEmergencyAlert (some userOne) "T" (some "a1") "Fire" "Evacuate" sampleState
        = ⟨[], Except.error AppError.notAuthorized, sampleState⟩ :=
  ⟨by decide,
    (createEmergencyAlert_auth_spec userOne "T" (some "a1") "a1" "Fire" "Evacuate"
      sampleState).2.1 (by decide)⟩

/-- When no element of the list matches the id, the `isFollowing` fold
leaves its accumulator unchanged. -/
theorem foldl_flag_const (l : List Notification) (nid uid : String) (b : Bool)
    (h : ∀ n ∈ l, n.id ≠ nid) :
    l.foldl (fun acc n => if n.id = nid then n.followedBy.contains uid else acc) b = b := by
  induction l generalizing b with
  | nil => rfl
  | cons a t ih =>
    have ha : a.id ≠ nid := h a (by simp)
    rw [List.foldl_cons, if_neg ha]
    exact ih b (fun n hn => h n (List.mem_cons_of_mem a hn))

/-- With pairwise-distinct ids, the mutable `isFollowing` flag of
`toggleFollow` ends up holding the membership test of the unique record
whose id matches. -/
theorem foldl_isFollowing (l : List Notification) (nid uid : String) (m : Notification)
    (hnd : (l.map (fun n => n.id)).Nodup)
    (hm : l.find? (fun n => n.id = nid) = some m) :
    l.foldl (fun acc n => if n.id = nid then n.followedBy.contains uid else acc) false
      = m.followedBy.contains uid := by
  induction l with
  | nil => simp at hm
  | cons a t ih =>
    rw [List.map_cons, List.nodup_cons] at hnd
    by_cases h : a.id = nid
    · have hma : a = m := by
        have : some a = some m := by simpa [List.find?_cons, h] using hm
        exact Option.some.inj this
      subst hma
      rw [List.foldl_cons, if_pos h]
      apply foldl_flag_const
      intro n hn hcontra
      have hids : a.id = n.id := by rw [h, hcontra]
      exact hnd.1 (hids ▸ List.mem_map_of_mem (fun n => n.id) hn)
    · rw [List.foldl_cons, if_neg h]
      exact ih hnd.2 (by simpa [List.find?_cons, h] using hm)

/-- The toggle updater never changes a record's id. -/
theorem toggleFun_id (nid uid : String) (n : Notification) :
    (toggleFun nid uid n).id = n.id := by
  simp only [toggleFun]
  split <;> rfl

/-- The toggle updater changes nothing on a record whose id differs. -/
theorem toggleFun_other (nid uid : String) (n : Notification) (h : n.id ≠ nid) :
    toggleFun nid uid n = n := by
  simp [toggleFun, h]

/-- The optimistic apply of `toggleFollow` preserves the sequence of ids. -/
theorem toggleFun_map_ids (nid uid : String) (l : List Notification) :
    (l.map (toggleFun nid uid)).map (fun n => n.id) = l.map (fun n => n.id) := by
  rw [List.map_map]
  exact List.map_congr_left (fun n _ => toggleFun_id nid uid n)

/-- For an authenticated caller, the state `toggleFollow` leaves behind when
the remote patch succeeds is exactly the optimistic apply, whatever the
closure contained. -/
theorem toggleFollow_state_eq (u : User) (c : List Notification)
    (rN : Option (List Notification)) (rA : Option (List EmergencyAlert))
    (nid : String) (s : CacheState) :
    (toggleFollow (some u) c true rN rA nid s).2
      = { s with notifications := s.notifications.map (toggleFun nid u.id) } := by
  simp only [toggleFollow]
  cases c.find? (fun n => n.id = nid) <;> rfl

/-- Toggling membership twice restores the original membership. -/
theorem mem_toggleList_toggleList (fb : List String) (uid x : String) :
    x ∈ toggleList (toggleList fb uid) uid ↔ x ∈ fb := by
  by_cases h : uid ∈ fb
  · have h1 : toggleList fb uid = fb.filter (fun y => y ≠ uid) := by
      simp [toggleList, h]
    have h2 : uid ∉ fb.filter (fun y => y ≠ uid) := by
      simp [List.mem_filter]
    have h3 : toggleList (fb.filter (fun y => y ≠ uid)) uid
        = fb.filter (fun y => y ≠ uid) ++ [uid] := by
      simp only [toggleList]
      rw [if_neg (by simp)]
    rw [h1, h3]
    simp only [List.mem_append, List.mem_filter, List.mem_singleton]
    constructor
    · rintro (⟨hx, _⟩ | hx)
      · exact hx
      · rw [hx]; exact h
    · intro hx
      by_cases hxu : x = uid
      · exact Or.inr hxu
      · exact Or.inl ⟨hx, by simpa using hxu⟩
  · have h1 : toggleList fb uid = fb ++ [uid] := by
      simp only [toggleList]
      rw [if_neg (by simpa using h)]
    have h2 : toggleList (fb ++ [uid]) uid = (fb ++ [uid]).filter (fun y => y ≠ uid) := by
      simp [toggleList]
    have h3 : (fb ++ [uid]).filter (fun y => y ≠ uid) = fb := by
      rw [List.filter_append]
      have hself : fb.filter (fun y => y ≠ uid) = fb := by
        apply List.filter_eq_self.mpr
        intro a ha
        simp only [ne_eq, decide_eq_true_eq]
        intro hax
        exact h (hax ▸ ha)
      rw [hself]
      simp
    rw [h1, h2, h3]

/-- Behavior of `toggleFollow` for an authenticated caller whose closure is
the current snapshot (no pending un-rendered update) on a sequence with
pairwise-distinct ids containing the id: the single remote patch carries
exactly the full toggled `followedBy` list, and (when the remote patch
succeeds) the locally stored record holds that same list. -/
theorem toggleFollow_fresh_spec (u : User) (remoteOk : Bool)
    (rN : Option (List Notification)) (rA : Option (List EmergencyAlert))
    (nid : String) (s : CacheState) (m : Notification)
    (hnd : (s.notifications.map (fun n => n.id)).Nodup)
    (hm : getNotificationById s nid = some m) :
    (toggleFollow (some u) s.notifications remoteOk rN rA nid s).1
        = [RemoteWrite.patchNotificationW nid
            { followedBy := some (toggleList m.followedBy u.id) }] ∧
      getNotificationById (toggleFollow (some u) s.notifications true rN rA nid s).2 nid
        = some { m with followedBy := toggleList m.followedBy u.id } := by
  have hfind : s.notifications.find? (fun n => n.id = nid) = some m := hm
  have hfold := foldl_isFollowing s.notifications nid u.id m hnd hfind
  have hmid : m.id = nid := by
    have := List.find?_some hfind
    simpa using this
  constructor
  · simp only [toggleFollow, hfind, hfold]
    cases remoteOk <;> simp [toggleList]
  · rw [toggleFollow_state_eq]
    have heq : getNotificationById
          { s with notifications := s.notifications.map (toggleFun nid u.id) } nid
        = (s.notifications.map (fun n => if n.id = nid
              then { n with followedBy := toggleList n.followedBy u.id } else n)).find?
            (fun n => n.id = nid) := rfl
    rw [heq, find?_map_ite s.notifications nid
        (fun n => { n with followedBy := toggleList n.followedBy u.id }) (fun n => rfl),
      hfind]
    simp [hmid]

def staleState : CacheState :=
  { notifications := [{ sampleNotification with followedBy := ["U1", "U3"] }]
    emergencyAlerts := [], loading := false }

/-- C3 counterexample.  The claim asserts the remote `followedBy` payload is
computed from the current local snapshot, never from a stale closure, and
equals the set just applied locally.  On the code the payload is read from
the closure-captured array: with a closure predating a follow by `U3`, the
local apply yields followers `[U1, U3, U2]` while the remote patch carries
`[U1, U2]`, silently dropping `U3`. -/
theorem toggle_stale_closure_cex :
    (toggleFollow (some userTwo) [sampleNotification] true none none "n1" staleState).1
        = [RemoteWrite.patchNotificationW "n1" { followedBy := some ["U1", "U2"] }] ∧
      (toggleFollow (some userTwo) [sampleNotification] true none none "n1"
          staleState).2.notifications.map (fun n => n.followedBy)
        = [["U1", "U3", "U2"]] ∧
      "U3" ∈ (["U1", "U3", "U2"] : List String) ∧
      "U3" ∉ (["U1", "U2"] : List String) := by
  decide

/-- C3 amended.  The optimistic local value is computed from the current
snapshot, but the remote `followedBy` payload is computed from the
render-time closure; when the closure equals the current snapshot and the
record ids are pairwise distinct, the single remote patch carries the entire
recomputed `followedBy` list, equal to the list just applied locally. -/
theorem toggle_remote_payload_fresh (u : User) (remoteOk : Bool)
    (rN : Option (List Notification)) (rA : Option (List EmergencyAlert))
    (nid : String) (s : CacheState) (m : Notification)
    (hnd : (s.notifications.map (fun n => n.id)).Nodup)
    (hm : getNotificationById s nid = some m) :
    (toggleFollow (some u) s.notifications remoteOk rN rA nid s).1
        = [RemoteWrite.patchNotificationW nid
            { followedBy := some (toggleList m.followedBy u.id) }] ∧
      getNotificationById (toggleFollow (some u) s.notifications true rN rA nid s).2 nid
        = some { m with followedBy := toggleList m.followedBy u.id } :=
  toggleFollow_fresh_spec u remoteOk rN rA nid s m hnd hm

/-- Witness for the hypotheses of `toggle_remote_payload_fresh` at the
sample state. -/
theorem toggle_remote_payload_fresh_witness :
    ((sampleState.notifications.map (fun n => n.id)).Nodup ∧
      getNotificationById sampleState "n1" = some sampleNotification) ∧
      (toggleFollow (some userTwo) sampleState.notifications true none none "n1"
          sampleState).1
        = [RemoteWrite.patchNotificationW "n1"
            { followedBy := some (toggleList sampleNotification.followedBy userTwo.id) }] :=
  ⟨⟨by decide, by decide⟩,
    (toggle_remote_payload_fresh userTwo true none none "n1" sampleState sampleNotification
      (by decide) (by decide)).1⟩

/-- C6.  Two consecutive `toggleFollow(id)` calls by the same identity, the
second invoked on the state left by the first (both remote patches
succeeding), restore the record's `followedBy` set to its pre-call
membership, and each call issues exactly one remote write of its own. -/
theorem toggle_twice_restores_membership (u : User)
    (rN rN2 : Option (List Notification)) (rA rA2 : Option (List EmergencyAlert))
    (nid : String) (s : CacheState) (m : Notification)
    (hnd : (s.notifications.map (fun n => n.id)).Nodup)
    (hm : getNotificationById s nid = some m) :
    (∃ m2 : Notification,
        getNotificationById
            (toggleFollow (some u)
              (toggleFollow (some u) s.notifications true rN rA nid s).2.notifications
              true rN2 rA2 nid
              (toggleFollow (some u) s.notifications true rN rA nid s).2).2 nid
          = some m2 ∧
        ∀ x : String, x ∈ m2.followedBy ↔ x ∈ m.followedBy) ∧
      (toggleFollow (some u) s.notifications true rN rA nid s).1.length = 1 ∧
      (toggleFollow (some u)
          (toggleFollow (some u) s.notifications true rN rA nid s).2.notifications
          true rN2 rA2 nid
          (toggleFollow (some u) s.notifications true rN rA nid s).2).1.length = 1 := by
  obtain ⟨hw1, hs1⟩ := toggleFollow_fresh_spec u true rN rA nid s m hnd hm
  have hstate : (toggleFollow (some u) s.notifications true rN rA nid s).2.notifications
      = s.notifications.map (toggleFun nid u.id) := by
    rw [toggleFollow_state_eq]
  have hnd1 : ((toggleFollow (some u) s.notifications true rN rA nid s).2.notifications.map
      (fun n => n.id)).Nodup := by
    rw [hstate, toggleFun_map_ids]
    exact hnd
  obtain ⟨hw2, hs2⟩ := toggleFollow_fresh_spec u true rN2 rA2 nid
    (toggleFollow (some u) s.notifications true rN rA nid s).2
    { m with followedBy := toggleList m.followedBy u.id } hnd1 hs1
  refine ⟨⟨{ m with followedBy := toggleList (toggleList m.followedBy u.id) u.id },
    ?_, ?_⟩, ?_, ?_⟩
  · exact hs2
  · intro x
    exact mem_toggleList_toggleList m.followedBy u.id x
  · rw [hw1]
    rfl
  · rw [hw2]
    rfl

/-- Witness for the hypotheses of `toggle_twice_restores_membership` at the
sample state. -/
theorem toggle_twice_restores_membership_witness :
    ((sampleState.notifications.map (fun n => n.id)).Nodup ∧
      getNotificationById sampleState "n1" = some sampleNotification) ∧
      (toggleFollow (some userTwo) sampleState.notifications true none none "n1"
          sampleState).1.length = 1 :=
  ⟨⟨by decide, by decide⟩,
    (toggle_twice_restores_membership userTwo none none none none "n1" sampleState
      sampleNotification (by decide) (by decide)).2.1⟩

/-- C7.  `toggleFollow` on an id that no record of the local sequence
carries is a complete no-op: the state is returned unchanged and no remote
write is issued (for any caller, authenticated or not). -/
theorem toggle_missing_id_noop (user : Option User) (remoteOk : Bool)
    (rN : Option (List Notification)) (rA : Option (List EmergencyAlert))
    (nid : String) (s : CacheState)
    (h : ∀ n ∈ s.notifications, n.id ≠ nid) :
    toggleFollow user s.notifications remoteOk rN rA nid s = ([], s) := by
  cases user with
  | none => rfl
  | some u =>
    have hmap : s.notifications.map (toggleFun nid u.id) = s.notifications := by
      have hcongr : ∀ n ∈ s.notifications, toggleFun nid u.id n = id n :=
        fun n hn => toggleFun_other nid u.id n (h n hn)
      rw [List.map_congr_left hcongr, List.map_id]
    have hfind : s.notifications.find? (fun n => n.id = nid) = none := by
      rw [List.find?_eq_none]
      intro n hn
      simpa using h n hn
    simp only [toggleFollow, hfind, hmap]

/-- Witness for the hypothesis of `toggle_missing_id_noop`: the sample state
holds no record with id `zzz`. -/
theorem toggle_missing_id_noop_witness :
    (∀ n ∈ sampleState.notifications, n.id ≠ "zzz") ∧
      toggleFollow (some userTwo) sampleState.notifications true none none "zzz" sampleState
        = ([], sampleState) :=
  ⟨by decide,
    toggle_missing_id_noop (some userTwo) true none none "zzz" sampleState (by decide)⟩

/-- The toggle updater never changes a record's `updatedAt`. -/
theorem toggleFun_updatedAt (nid uid : String) (n : Notification) :
    (toggleFun nid uid n).updatedAt = n.updatedAt := by
  by_cases h : n.id = nid <;> simp [toggleFun, h]

/-- Every write `toggleFollow` issues is a `followedBy`-only patch: it is
either empty or a single patch of the toggled followers list. -/
theorem toggleFollow_writes_shape (u : User) (c : List Notification) (remoteOk : Bool)
    (rN : Option (List Notification)) (rA : Option (List EmergencyAlert))
    (nid : String) (s : CacheState) :
    (toggleFollow (some u) c remoteOk rN rA nid s).1 = [] ∨
      ∃ fb : List String,
        (toggleFollow (some u) c remoteOk rN rA nid s).1
          = [RemoteWrite.patchNotificationW nid { followedBy := some fb }] := by
  simp only [toggleFollow]
  cases c.find? (fun n => n.id = nid) with
  | none => exact Or.inl rfl
  | some n0 =>
    cases remoteOk
    · exact Or.inr ⟨_, rfl⟩
    · exact Or.inr ⟨_, rfl⟩

/-- C9 counterexample.  The claim asserts every successful `toggleFollow`
writes the mutation's issue time into `updatedAt` both locally and remotely.
On the code, the sample toggle's remote patch carries no `updatedAt` field
at all, and the local record's `updatedAt` stays at its previous value
`T0`. -/
theorem toggle_no_timestamp_cex :
    (toggleFollow (some userTwo) sampleState.notifications true none none "n1"
          sampleState).1.map patchUpdatedAt = [some none] ∧
      (toggleFollow (some userTwo) sampleState.notifications true none none "n1"
          sampleState).2.notifications.map (fun n => n.updatedAt) = ["T0"] ∧
      sampleState.notifications.map (fun n => n.updatedAt) = ["T0"] := by
  decide

/-- C9 amended.  `updateFields` stamps the same issue time into `updatedAt`
remotely and locally; `updateStatus` stamps the remote patch and the local
record from two separate clock readings (`patchTime` at patch time,
`applyTime` at apply time), not guaranteed equal; `toggleFollow` leaves
`updatedAt` untouched locally and sends no `updatedAt` remotely. -/
theorem updatedAt_discipline (remoteOk : Bool) (patchTime applyTime ts nid : String)
    (st : NotificationStatus) (p : NotificationPatch) (s : CacheState) (u : User)
    (c : List Notification) (rN : Option (List Notification))
    (rA : Option (List EmergencyAlert)) :
    (updateNotificationStatus remoteOk patchTime applyTime nid st s).writes
        = [RemoteWrite.patchNotificationW nid
            { status := some st, updatedAt := some patchTime }] ∧
      getNotificationById (updateNotificationStatus true patchTime applyTime nid st s).state
          nid
        = (getNotificationById s nid).map
            (fun n => { n with status := st, updatedAt := applyTime }) ∧
      (updateNotification remoteOk ts nid p s).writes
        = [RemoteWrite.patchNotificationW nid { p with updatedAt := some ts }] ∧
      (p.id = none → ∀ n : Notification, getNotificationById s nid = some n →
        (getNotificationById (updateNotification true ts nid p s).state nid).map
            (fun n2 => n2.updatedAt)
          = some ts) ∧
      (toggleFollow (some u) c true rN rA nid s).2.notifications.map (fun n => n.updatedAt)
        = s.notifications.map (fun n => n.updatedAt) ∧
      (∀ w ∈ (toggleFollow (some u) c true rN rA nid s).1, patchUpdatedAt w = some none) := by
  refine ⟨?_, ?_, ?_, ?_, ?_, ?_⟩
  · cases remoteOk <;> rfl
  · simpa [getNotificationById, updateNotificationStatus] using
      find?_map_ite s.notifications nid
        (fun n => { n with status := st, updatedAt := applyTime }) (fun n => rfl)
  · cases remoteOk <;> rfl
  · intro hp n hn
    have hid : ∀ n : Notification,
        (applyPatch n { p with updatedAt := some ts }).id = n.id := by
      intro n2
      simp [applyPatch, hp]
    have hby : getNotificationById (updateNotification true ts nid p s).state nid
        = (getNotificationById s nid).map
            (fun n2 => applyPatch n2 { p with updatedAt := some ts }) := by
      simpa [getNotificationById, updateNotification] using
        find?_map_ite s.notifications nid
          (fun n2 => applyPatch n2 { p with updatedAt := some ts }) hid
    rw [hby, hn]
    simp [applyPatch]
  · rw [toggleFollow_state_eq]
    show (s.notifications.map (toggleFun nid u.id)).map (fun n => n.updatedAt)
      = s.notifications.map (fun n => n.updatedAt)
    rw [List.map_map]
    exact List.map_congr_left (fun n _ => toggleFun_updatedAt nid u.id n)
  · intro w hw
    rcases toggleFollow_writes_shape u c true rN rA nid s with hsh | ⟨fb, hsh⟩
    · rw [hsh] at hw
      simp at hw
    · rw [hsh] at hw
      rw [List.mem_singleton.mp hw]
      rfl

/-- Witness for the hypotheses of `updatedAt_discipline`, at the empty patch
and the sample state. -/
theorem updatedAt_discipline_witness :
    (emptyPatch.id = none ∧ getNotificationById sampleState "n1" = some sampleNotification) ∧
      (getNotificationById
            (updateNotification true "T9" "n1" emptyPatch sampleState).state "n1").map
          (fun n2 => n2.updatedAt)
        = some "T9" :=
  ⟨⟨rfl, by decide⟩,
    (updatedAt_discipline true "TP" "TA" "T9" "n1" NotificationStatus.resolved emptyPatch
      sampleState userTwo sampleState.notifications none none).2.2.2.1 rfl
      sampleNotification (by decide)⟩

/-- C10.  The optimistic local apply of `toggleFollow` is a frame-preserving
update: the record stored at every position keeps its id and every field
other than `followedBy` (type, title, description, location, photoUrl,
status, createdBy, createdByName, createdAt, updatedAt), and any record
whose id differs from the toggled id is kept entirely unchanged. -/
theorem toggle_local_frame (u : User) (c : List Notification)
    (rN : Option (List Notification)) (rA : Option (List EmergencyAlert))
    (nid : String) (s : CacheState) (i : Nat) (n : Notification)
    (hn : s.notifications[i]? = some n) :
    ∃ n2 : Notification,
      (toggleFollow (some u) c true rN rA nid s).2.notifications[i]? = some n2 ∧
        n2.id = n.id ∧ n2.type = n.type ∧ n2.title = n.title ∧
        n2.description = n.description ∧ n2.location = n.location ∧
        n2.photoUrl = n.photoUrl ∧ n2.status = n.status ∧
        n2.createdBy = n.createdBy ∧ n2.createdByName = n.createdByName ∧
        n2.createdAt = n.createdAt ∧ n2.updatedAt = n.updatedAt ∧
        (n.id ≠ nid → n2 = n) := by
  have hstate : (toggleFollow (some u) c true rN rA nid s).2.notifications
      = s.notifications.map (toggleFun nid u.id) := by
    rw [toggleFollow_state_eq]
  refine ⟨toggleFun nid u.id n, ?_, ?_⟩
  · rw [hstate, List.getElem?_map, hn]
    rfl
  · by_cases h : n.id = nid
    · simp [toggleFun, h]
    · simp [toggleFun, h]

/-- Witness for the hypothesis of `toggle_local_frame` at position 0 of the
sample state. -/
theorem toggle_local_frame_witness :
    sampleState.notifications[0]? = some sampleNotification ∧
      ∃ n2 : Notification,
        (toggleFollow (some userTwo) sampleState.notifications true none none "n1"
            sampleState).2.notifications[0]? = some n2 ∧
          n2.id = sampleNotification.id ∧ n2.type = sampleNotification.type ∧
          n2.title = sampleNotification.title ∧
          n2.description = sampleNotification.description ∧
          n2.location = sampleNotification.location ∧
          n2.photoUrl = sampleNotification.photoUrl ∧
          n2.status = sampleNotification.status ∧
          n2.createdBy = sampleNotification.createdBy ∧
          n2.createdByName = sampleNotification.createdByName ∧
          n2.createdAt = sampleNotification.createdAt ∧
          n2.updatedAt = sampleNotification.updatedAt ∧
          (sampleNotification.id ≠ "n1" → n2 = sampleNotification) :=
  ⟨rfl,
    toggle_local_frame userTwo sampleState.notifications none none "n1" sampleState 0
      sampleNotification rfl⟩
